import Mathlib

/-!
Verification of the `hyperdb-helper` scaffolding and build-orchestration CLI
(`src/index.js`, class `HyperdbHelper`).

The development shallowly embeds the logic the repository owns: Node.js path
strings become `JsPath` values (an absolute flag plus a normalized segment
list, mirroring `path.join` / `path.isAbsolute` / `path.dirname` /
`path.relative` on POSIX), the filesystem becomes the list of paths that
currently exist (well-formed states are closed under taking the parent
directory), and the `async` methods become computations in a state monad `M`
that threads the filesystem and records a trace of the effects the code
performs (file writes, directory creations, dynamic imports, and the calls
into the external `Hyperschema` / `HyperDB` builder libraries, which are
treated as opaque events exactly as the source treats them as black boxes).

Modelling conventions, noted once here:
* a JavaScript path value is a non-empty string; the empty string is falsy
  in JS and every `||`-site in the source treats it like an absent value, so
  absence-or-empty is modelled as `Option.none`;
* `JSON.parse` of an existing `package.json` is assumed to succeed (the
  malformed-JSON branch of `getPackageJson` is not exercised by any claim);
* a dynamic `import()` succeeds exactly when the imported file exists.
-/

namespace HyperdbSpec

/-- Model of a Node.js (POSIX) path string: whether it is absolute, and its
list of segments.  `⟨false, [".", "database"]⟩` models `"./database"`. -/
structure JsPath where
  absolute : Bool
  segs : List String
deriving DecidableEq

/-- One step of the Node path normalization, used by `path.join`: empty and
`"."` segments vanish, `".."` pops the previous segment (staying at the root
for absolute paths, accumulating for relative ones), anything else is
appended. -/
def joinStep (absolute : Bool) (acc : List String) (s : String) : List String :=
  if s = "" then acc
  else if s = "." then acc
  else if s = ".." then
    match acc.getLast? with
    | none => if absolute then [] else [".."]
    | some last => if last = ".." then acc ++ [".."] else acc.dropLast
  else acc ++ [s]

/-- `path.join(p, q)`: the segments of `q` are appended to `p` and the result
is normalized.  As in Node, the result is absolute iff the first argument
is. -/
def JsPath.join (p q : JsPath) : JsPath :=
  ⟨p.absolute, q.segs.foldl (joinStep p.absolute) p.segs⟩

/-- `path.isAbsolute`. -/
def JsPath.isAbsolute (p : JsPath) : Bool := p.absolute

/-- `path.dirname`: drop the last segment. -/
def JsPath.dirname (p : JsPath) : JsPath := ⟨p.absolute, p.segs.dropLast⟩

/-- The path together with all the directories above it (used to model
`fs.mkdir` with `recursive: true`, which creates every missing ancestor). -/
def JsPath.ancestors (p : JsPath) : List JsPath :=
  (List.range (p.segs.length + 1)).map (fun n => ⟨p.absolute, p.segs.take n⟩)

/-- Helper for `path.relative`: strip the common prefix, then climb out of
what remains of the source and descend into what remains of the target. -/
def relSegsAux : List String → List String → List String
  | a :: as, b :: bs =>
    if a = b then relSegsAux as bs
    else (a :: as).map (fun _ => "..") ++ (b :: bs)
  | [], bs => bs
  | as, [] => as.map (fun _ => "..")

/-- `path.relative(p, q)` for two absolute normalized paths. -/
def JsPath.relative (p q : JsPath) : JsPath := ⟨false, relSegsAux p.segs q.segs⟩

/-- The filesystem root `/`. -/
def rootPath : JsPath := ⟨true, []⟩

/-- A child path obtained by appending one plain segment (a convenient normal
form for the paths the scaffolder derives). -/
def childOf (p : JsPath) (s : String) : JsPath := ⟨p.absolute, p.segs ++ [s]⟩

/-- A filesystem state is the list of paths that exist. -/
abbrev Fs : Type := List JsPath

/-- Well-formed filesystem: the root exists, every existing path is absolute,
and the parent of every existing non-root path also exists. -/
def wfFs (fs : Fs) : Prop :=
  rootPath ∈ fs ∧
    ∀ p ∈ fs, p.absolute = true ∧ (p.segs ≠ [] → p.dirname ∈ fs)

instance (fs : Fs) : Decidable (wfFs fs) := by
  unfold wfFs
  infer_instance

/-- The template whose rendering a `fs.writeFile` call receives (the string
contents themselves live in `src/templates/`; the claims only depend on which
template is written where, and with which parameters). -/
inductive Tmpl where
  | configFile (moduleType : Option String)
  | functionsFile (examples : Bool)
  | schemaFile (examples : Bool)
  | packageJson (main : JsPath) (type : String)
  | exampleIndex (relativePath : JsPath) (moduleType : Option String)
deriving DecidableEq

/-- Effects performed by the helper, in program order: filesystem writes,
directory creations, dynamic imports of the user schema module, and the
calls into the external builder libraries. -/
inductive Ev where
  | evWriteFile (p : JsPath) (content : Tmpl)
  | evMkdir (p : JsPath) (recursive : Bool)
  | evImportModule (p : JsPath)
  | evHyperschemaFrom (hyperschemaDirectory : JsPath)
  | evCreateSchema
  | evHyperschemaToDisk
  | evHyperdbFrom (hyperschemaDirectory hyperdbDirectory : JsPath)
  | evCreateDatabase
  | evHyperdbToDisk
deriving DecidableEq

/-- The errors the embedded code can throw. -/
inductive Err where
  | missingConfigFields (fields : List String)
  | packageJsonNotFound
  | schemaDirectoryExists (p : JsPath)
  | indexFileExists (p : JsPath)
  | databaseDirectoryNotFound (p : JsPath)
  | importFailed (p : JsPath)
  | fsError
deriving DecidableEq

/-- Program state: the filesystem plus the trace of effects so far. -/
structure St where
  fs : Fs
  tr : List Ev
deriving DecidableEq

/-- Result of a computation. -/
inductive Res (α : Type) where
  | ok (a : α)
  | err (e : Err)
deriving DecidableEq

/-- The effect monad: state (filesystem + trace) with errors that preserve
the state at the point of failure. -/
def M (α : Type) : Type := St → Res α × St

def M.pure (a : α) : M α := fun s => (Res.ok a, s)

def M.bind (x : M α) (f : α → M β) : M β := fun s =>
  match x s with
  | (Res.ok a, s') => f a s'
  | (Res.err e, s') => (Res.err e, s')

instance : Monad M where
  pure := M.pure
  bind := M.bind

/-- Read the current state. -/
def getSt : M St := fun s => (Res.ok s, s)

/-- Throw an error, leaving the state untouched. -/
def throwE (e : Err) : M α := fun s => (Res.err e, s)

/-- Record an external effect (an event with no filesystem footprint in the
model: dynamic imports and the opaque builder calls). -/
def tellE (e : Ev) : M Unit := fun s => (Res.ok (), ⟨s.fs, s.tr ++ [e]⟩)

/-- The helper `exists` of the source (`fs.access`, with `ENOENT` mapped to
`false`). -/
def existsM (p : JsPath) : M Bool := fun s => (Res.ok (decide (p ∈ s.fs)), s)

/-- `fs.writeFile`: succeeds whenever the parent directory exists, silently
overwriting any previous file at the path. -/
def writeFileM (p : JsPath) (content : Tmpl) : M Unit := fun s =>
  if p.dirname ∈ s.fs then
    (Res.ok (), ⟨p :: s.fs, s.tr ++ [Ev.evWriteFile p content]⟩)
  else (Res.err Err.fsError, s)

/-- `fs.mkdir` without `recursive`: fails if the directory already exists or
its parent is missing. -/
def mkdirM (p : JsPath) : M Unit := fun s =>
  if p ∈ s.fs then (Res.err Err.fsError, s)
  else if p.dirname ∈ s.fs then
    (Res.ok (), ⟨p :: s.fs, s.tr ++ [Ev.evMkdir p false]⟩)
  else (Res.err Err.fsError, s)

/-- `fs.mkdir` with `recursive: true`: creates the directory and every
missing ancestor, succeeding even when the directory already exists. -/
def mkdirRecM (p : JsPath) : M Unit := fun s =>
  (Res.ok (),
    ⟨(p.ancestors.filter (fun q => decide (q ∉ s.fs))) ++ s.fs,
      s.tr ++ [Ev.evMkdir p true]⟩)

/-- Parsed contents of a `package.json` manifest, restricted to the fields
the helper reads (`type` and `dependencies`, the latter a name-to-version
map). -/
structure PackageJson where
  type : Option String
  dependencies : Option (List (String × String))
deriving DecidableEq

/-- The object a user `config.js` module may export (fields beyond these
are never read after the spread in `mergeConfig`).  `none` models both an
absent field and the JS-falsy empty string. -/
structure UserConfig where
  databaseConfigDirectory : Option JsPath
  generatedCodeDirectory : Option JsPath
  functionsFilepath : Option JsPath
  schemaFilepath : Option JsPath
  configFilepath : Option JsPath
  projectPackageJsonFilepath : Option JsPath
  package : Option PackageJson
  moduleType : Option String
deriving DecidableEq

/-- The user config module exporting nothing (also the result of a failed
`import` of `config.js`). -/
def UserConfig.empty : UserConfig :=
  ⟨none, none, none, none, none, none, none, none⟩

/-- The merged configuration object as it stands after `mergeConfig`. -/
structure Config where
  databaseConfigDirectory : JsPath
  generatedCodeDirectory : JsPath
  functionsFilepath : JsPath
  schemaFilepath : JsPath
  configFilepath : JsPath
  projectPackageJsonFilepath : JsPath
  package : Option PackageJson
  examples : Bool
  databaseConfigJsonFilepath : JsPath
  generatedPackageJsonFilepath : JsPath
  hyperschemaDirectory : JsPath
  hyperdbDirectory : JsPath
  moduleType : Option String
deriving DecidableEq

/-- The `options` argument the CLI passes to `init`/`build` (the parsed
`mri` flags; only `examples` is ever read). -/
structure Options where
  examples : Bool
deriving DecidableEq

/-- The ambient world of one invocation: the working directory
(`process.cwd()`, always an absolute path), the object the user
`config.js` module would export if that file exists, and the parsed contents
the project `package.json` would have if it exists. -/
structure World where
  cwd : JsPath
  userConfig : UserConfig
  projectPackage : PackageJson
deriving DecidableEq

/-- JavaScript `a || b` on an optional string (the empty string is falsy). -/
def jsOrString (a : Option String) (b : String) : String :=
  match a with
  | some s => if s = "" then b else s
  | none => b

/-- Truthiness of an optional string config field. -/
def jsTruthyOptStr : Option String → Bool
  | none => false
  | some s => s != ""

/-- Truthiness of a path-valued config field.  A `JsPath` models a non-empty
path string (see the header), and every non-empty string is truthy. -/
def jsTruthyPathStr (_p : JsPath) : Bool := true

namespace HyperdbHelper

/-- `HyperdbHelper.defaultConfig` (the `package: {}` default is modelled at
its use sites; it is replaced unconditionally in `mergeConfig`). -/
def defaultDatabaseConfigDirectory : JsPath := ⟨false, [".", "database"]⟩

/-- Default `./generated`. -/
def defaultGeneratedCodeDirectory : JsPath := ⟨false, [".", "generated"]⟩

/-- Default `./functions.js`. -/
def defaultFunctionsFilepath : JsPath := ⟨false, [".", "functions.js"]⟩

/-- Default `./schema.js`. -/
def defaultSchemaFilepath : JsPath := ⟨false, [".", "schema.js"]⟩

/-- Default `./config.js`. -/
def defaultConfigFilepath : JsPath := ⟨false, [".", "config.js"]⟩

/-- Default `./package.json`. -/
def defaultProjectPackageJsonFilepath : JsPath := ⟨false, [".", "package.json"]⟩

/-- `this.requiredDependencies` from the constructor. -/
def requiredDependencies : List String := ["hyperschema", "hyperdb", "corestore"]

end HyperdbHelper

/-- `getDatabaseConfigDirectory` (default argument `./database`):
the CLI filepath argument is kept when absolute, otherwise joined to the
current working directory; a missing argument defaults to `./database`. -/
def getDatabaseConfigDirectory (cwd : JsPath)
    (databaseFilepathArgument : Option JsPath) : JsPath :=
  let arg := databaseFilepathArgument.getD HyperdbHelper.defaultDatabaseConfigDirectory
  if arg.isAbsolute then arg else cwd.join arg

/-- `getFilepathFromConfig(config, configProperty, defaultFilepath)`.
`spreadValue` is `config[configProperty]` at that point of `mergeConfig`,
i.e. the value of the user config when it provides (a truthy) one; since every
default path is itself truthy and equal to `defaultFilepath`, the JS
`config[configProperty] || defaultFilepath` collapses to `Option.getD`. -/
def getFilepathFromConfig (databaseConfigDirectory : JsPath)
    (spreadValue : Option JsPath) (defaultFilepath : JsPath) : JsPath :=
  let filepath := spreadValue.getD defaultFilepath
  if filepath.isAbsolute then filepath
  else databaseConfigDirectory.join filepath

namespace HyperdbHelper

/-- `mergeConfig(filepath, options)`.  The user config is loaded by a dynamic
dynamic import of `config.js` under the config directory, which succeeds
exactly when that file exists; `getPackageJson(process.cwd())` returns the
parsed project manifest when `<cwd>/package.json` exists and `undefined`
otherwise, so the assignment `config.package = ...` either installs the
parsed manifest or overwrites the spread value with `undefined`. -/
def mergeConfig (fs : Fs) (w : World) (filepath : Option JsPath)
    (options : Options) : Config :=
  let databaseConfigDirectory := getDatabaseConfigDirectory w.cwd filepath
  let configLoadFilepath := databaseConfigDirectory.join ⟨false, ["config.js"]⟩
  let userConfig :=
    if configLoadFilepath ∈ fs then w.userConfig else UserConfig.empty
  let functionsFilepath := getFilepathFromConfig databaseConfigDirectory
    userConfig.functionsFilepath defaultFunctionsFilepath
  let schemaFilepath := getFilepathFromConfig databaseConfigDirectory
    userConfig.schemaFilepath defaultSchemaFilepath
  let configFilepath := getFilepathFromConfig databaseConfigDirectory
    userConfig.configFilepath defaultConfigFilepath
  let projectPackageJsonFilepath := getFilepathFromConfig databaseConfigDirectory
    userConfig.projectPackageJsonFilepath defaultProjectPackageJsonFilepath
  let databaseConfigJsonFilepath :=
    databaseConfigDirectory.join ⟨false, ["package.json"]⟩
  let generatedCodeDirectory := getFilepathFromConfig databaseConfigDirectory
    userConfig.generatedCodeDirectory defaultGeneratedCodeDirectory
  let generatedPackageJsonFilepath :=
    generatedCodeDirectory.join ⟨false, ["package.json"]⟩
  let hyperschemaDirectory := generatedCodeDirectory.join ⟨false, ["schemas"]⟩
  let hyperdbDirectory := generatedCodeDirectory.join ⟨false, ["database"]⟩
  let packageOpt : Option PackageJson :=
    if w.cwd.join ⟨false, ["package.json"]⟩ ∈ fs then some w.projectPackage
    else none
  let moduleType : Option String :=
    match packageOpt with
    | some pkg => some (jsOrString pkg.type "commonjs")
    | none => userConfig.moduleType
  ⟨databaseConfigDirectory, generatedCodeDirectory, functionsFilepath,
    schemaFilepath, configFilepath, projectPackageJsonFilepath, packageOpt,
    options.examples, databaseConfigJsonFilepath,
    generatedPackageJsonFilepath, hyperschemaDirectory, hyperdbDirectory,
    moduleType⟩

/-- `validateConfig(config)`: collect the required fields that are falsy and
throw when any is missing.  Path-valued fields model non-empty strings and
are always truthy; `moduleType` is the one field that can be absent. -/
def validateConfig (config : Config) : Option Err :=
  let required : List (String × Bool) :=
    [("databaseConfigDirectory", jsTruthyPathStr config.databaseConfigDirectory),
     ("generatedCodeDirectory", jsTruthyPathStr config.generatedCodeDirectory),
     ("functionsFilepath", jsTruthyPathStr config.functionsFilepath),
     ("schemaFilepath", jsTruthyPathStr config.schemaFilepath),
     ("configFilepath", jsTruthyPathStr config.configFilepath),
     ("projectPackageJsonFilepath",
       jsTruthyPathStr config.projectPackageJsonFilepath),
     ("databaseConfigJsonFilepath",
       jsTruthyPathStr config.databaseConfigJsonFilepath),
     ("generatedPackageJsonFilepath",
       jsTruthyPathStr config.generatedPackageJsonFilepath),
     ("hyperschemaDirectory", jsTruthyPathStr config.hyperschemaDirectory),
     ("hyperdbDirectory", jsTruthyPathStr config.hyperdbDirectory),
     ("moduleType", jsTruthyOptStr config.moduleType)]
  let missing := (required.filter (fun f => !f.2)).map (fun f => f.1)
  if missing.length > 0 then some (Err.missingConfigFields missing) else none

/-- `createConfigFile`. -/
def createConfigFile (config : Config) : M Unit :=
  writeFileM config.configFilepath (Tmpl.configFile config.moduleType)

/-- `createFunctionsFile`. -/
def createFunctionsFile (config : Config) : M Unit :=
  writeFileM config.functionsFilepath (Tmpl.functionsFile config.examples)

/-- `createSchemaFile`. -/
def createSchemaFile (config : Config) : M Unit :=
  writeFileM config.schemaFilepath (Tmpl.schemaFile config.examples)

/-- `createDatabaseConfigPackageJsonFile`. -/
def createDatabaseConfigPackageJsonFile (config : Config) : M Unit :=
  let mainIndex := config.databaseConfigDirectory.join ⟨false, ["package.json"]⟩
  writeFileM config.databaseConfigJsonFilepath
    (Tmpl.packageJson mainIndex "module")

/-- `createGeneratedPackageJsonFile`. -/
def createGeneratedPackageJsonFile (config : Config) : M Unit :=
  let mainIndex := config.hyperdbDirectory.join ⟨false, ["package.json"]⟩
  writeFileM config.generatedPackageJsonFilepath
    (Tmpl.packageJson mainIndex "commonjs")

/-- `createExampleIndexFile(indexFilepath)`. -/
def createExampleIndexFile (config : Config) (indexFilepath : JsPath) : M Unit :=
  let definitionsFilepath := config.hyperdbDirectory.join ⟨false, ["index.js"]⟩
  let projectDirectory := config.databaseConfigDirectory.dirname
  let relativePath := projectDirectory.relative definitionsFilepath
  writeFileM indexFilepath (Tmpl.exampleIndex relativePath config.moduleType)

/-- `createDefaultFiles`. -/
def createDefaultFiles (config : Config) : M Unit := do
  if (← existsM config.databaseConfigDirectory) then
    throwE (Err.schemaDirectoryExists config.databaseConfigDirectory)
  let exampleIndexFilepath :=
    config.databaseConfigDirectory.dirname.join ⟨false, ["index.js"]⟩
  if config.examples then
    if (← existsM exampleIndexFilepath) then
      throwE (Err.indexFileExists exampleIndexFilepath)
  mkdirRecM config.databaseConfigDirectory
  createConfigFile config
  createFunctionsFile config
  createSchemaFile config
  mkdirM config.generatedCodeDirectory
  createDatabaseConfigPackageJsonFile config
  createGeneratedPackageJsonFile config
  if config.examples then
    createExampleIndexFile config exampleIndexFilepath

/-- `checkPackageDependencies()`: `!dependencies[dependency]` tests the
truthiness of the version entry, so both an absent key and a falsy value
(the empty string) count as missing. -/
def checkPackageDependencies (config : Config) : List String :=
  match config.package with
  | none => requiredDependencies
  | some packageJson =>
    let dependencies := packageJson.dependencies.getD []
    requiredDependencies.filter (fun dependency =>
      !(jsTruthyOptStr ((dependencies.find? (fun d => d.1 == dependency)).map
        (fun d => d.2))))

/-- `init(filepath, options)`.  The existence check of `./package.json` on a
relative path is resolved by the OS against the working directory. -/
def init (w : World) (filepath : Option JsPath) (options : Options) :
    M (List String) := do
  let config := mergeConfig (← getSt).fs w filepath options
  match validateConfig config with
  | some e => throwE e
  | none => M.pure ()
  if !(← existsM (w.cwd.join ⟨false, [".", "package.json"]⟩)) then
    throwE Err.packageJsonNotFound
  createDefaultFiles config
  let dependenciesNeeded := checkPackageDependencies config
  M.pure dependenciesNeeded

/-- `getSchemaDefinitions(schemaFilepath)`: the dynamic import loads the
user schema-definition module when the file exists and throws otherwise. -/
def getSchemaDefinitions (schemaFilepath : JsPath) : M Unit := fun s =>
  if schemaFilepath ∈ s.fs then
    (Res.ok (), ⟨s.fs, s.tr ++ [Ev.evImportModule schemaFilepath]⟩)
  else (Res.err (Err.importFailed schemaFilepath), s)

/-- `buildSchema(schemaModule)`: the two external builder entry points, run
in sequence; they are opaque to this repository, so they appear as trace
events carrying the directories they persist to. -/
def buildSchema (config : Config) : M Unit := do
  tellE (Ev.evHyperschemaFrom config.hyperschemaDirectory)
  tellE Ev.evCreateSchema
  tellE Ev.evHyperschemaToDisk
  tellE (Ev.evHyperdbFrom config.hyperschemaDirectory config.hyperdbDirectory)
  tellE Ev.evCreateDatabase
  tellE Ev.evHyperdbToDisk

/-- `build(filepath, options)`. -/
def build (w : World) (filepath : Option JsPath) (options : Options) :
    M Unit := do
  let config := mergeConfig (← getSt).fs w filepath options
  if !(← existsM config.databaseConfigDirectory) then
    throwE (Err.databaseDirectoryNotFound config.databaseConfigDirectory)
  getSchemaDefinitions config.schemaFilepath
  buildSchema config

/-- The paths `init` creates or writes, as read off the merged config: the
database config directory, the three template files, the two `package.json`
manifests, the generated directory, and (with the `examples` option) the
example `index.js` next to the database config directory. -/
def initTargetPaths (config : Config) : List JsPath :=
  [config.databaseConfigDirectory, config.configFilepath,
    config.functionsFilepath, config.schemaFilepath,
    config.databaseConfigJsonFilepath, config.generatedCodeDirectory,
    config.generatedPackageJsonFilepath] ++
  (if config.examples then
    [config.databaseConfigDirectory.dirname.join ⟨false, ["index.js"]⟩]
  else [])

end HyperdbHelper

/-- The filesystem after a successful `createDefaultFiles`, given the
canonical shapes the config paths have on the `init` success path
(`D` is the database config directory). -/
def createdFs (D : JsPath) (examples : Bool) (fs : Fs) : Fs :=
  (if examples then [childOf D.dirname "index.js"] else []) ++
    childOf (childOf D "generated") "package.json" ::
    childOf D "package.json" ::
    childOf D "generated" ::
    childOf D "schema.js" ::
    childOf D "functions.js" ::
    childOf D "config.js" ::
    ((D.ancestors.filter (fun q => decide (q ∉ fs))) ++ fs)

/-- The trace of a successful `createDefaultFiles`. -/
def createdTr (D : JsPath) (examples : Bool) (moduleType : Option String) :
    List Ev :=
  [Ev.evMkdir D true,
   Ev.evWriteFile (childOf D "config.js") (Tmpl.configFile moduleType),
   Ev.evWriteFile (childOf D "functions.js") (Tmpl.functionsFile examples),
   Ev.evWriteFile (childOf D "schema.js") (Tmpl.schemaFile examples),
   Ev.evMkdir (childOf D "generated") false,
   Ev.evWriteFile (childOf D "package.json")
     (Tmpl.packageJson (childOf D "package.json") "module"),
   Ev.evWriteFile (childOf (childOf D "generated") "package.json")
     (Tmpl.packageJson
       (childOf (childOf (childOf D "generated") "database") "package.json")
       "commonjs")] ++
  (if examples then
    [Ev.evWriteFile (childOf D.dirname "index.js")
      (Tmpl.exampleIndex
        (D.dirname.relative
          (childOf (childOf (childOf D "generated") "database") "index.js"))
        moduleType)]
  else [])

/-- Concrete working directory `/home` used by witnesses. -/
def exCwd : JsPath := ⟨true, ["home"]⟩

/-- Concrete filesystem: `/`, `/home` and `/home/package.json` exist. -/
def exFs : Fs := [rootPath, exCwd, ⟨true, ["home", "package.json"]⟩]

/-- Concrete world: empty user config, project manifest with
`"type": "module"` and no `dependencies`. -/
def exWorld : World := ⟨exCwd, UserConfig.empty, ⟨some "module", none⟩⟩

/-- Concrete initial state for witnesses. -/
def exSt : St := ⟨exFs, []⟩

/-- A user `config.js` module that exports a `package` object and a
`moduleType` string (legal, since `mergeConfig` spreads whatever the module
exports). -/
def exUserCfg : UserConfig :=
  ⟨none, none, none, none, none, none, some ⟨none, none⟩, some "module"⟩

/-- Filesystem where the database config directory and its `config.js`
exist alongside the project `package.json`. -/
def exFsCfg : Fs :=
  [rootPath, exCwd, ⟨true, ["home", "package.json"]⟩,
    ⟨true, ["home", "database"]⟩,
    ⟨true, ["home", "database", "config.js"]⟩]

/-- Filesystem with the config directory and `config.js` but no project
`package.json` in the working directory. -/
def exFsNoPkg : Fs :=
  [rootPath, exCwd, ⟨true, ["home", "database"]⟩,
    ⟨true, ["home", "database", "config.js"]⟩]

/-- World whose `config.js` module exports `package` and `moduleType`. -/
def exWorldCfg : World := ⟨exCwd, exUserCfg, ⟨some "module", none⟩⟩

/-- World whose project manifest declares `hyperdb` with an empty version
string. -/
def exWorldDeps : World :=
  ⟨exCwd, UserConfig.empty, ⟨none, some [("hyperdb", "")]⟩⟩

/-! ### Path lemmas -/

theorem joinStep_dot (ab : Bool) (acc : List String) :
    joinStep ab acc "." = acc := by
  simp [joinStep]

theorem joinStep_plain (ab : Bool) (acc : List String) {s : String}
    (h1 : s ≠ "") (h2 : s ≠ ".") (h3 : s ≠ "..") :
    joinStep ab acc s = acc ++ [s] := by
  simp [joinStep, h1, h2, h3]

theorem join_single (p : JsPath) {s : String}
    (h1 : s ≠ "") (h2 : s ≠ ".") (h3 : s ≠ "..") :
    p.join ⟨false, [s]⟩ = childOf p s := by
  simp [JsPath.join, childOf, joinStep_plain _ _ h1 h2 h3]

theorem join_dot_single (p : JsPath) {s : String}
    (h1 : s ≠ "") (h2 : s ≠ ".") (h3 : s ≠ "..") :
    p.join ⟨false, [".", s]⟩ = childOf p s := by
  simp [JsPath.join, childOf, joinStep_dot, joinStep_plain _ _ h1 h2 h3]

@[simp] theorem join_configjs (p : JsPath) :
    p.join ⟨false, ["config.js"]⟩ = childOf p "config.js" :=
  join_single p (by decide) (by decide) (by decide)

@[simp] theorem join_packagejson (p : JsPath) :
    p.join ⟨false, ["package.json"]⟩ = childOf p "package.json" :=
  join_single p (by decide) (by decide) (by decide)

@[simp] theorem join_schemas (p : JsPath) :
    p.join ⟨false, ["schemas"]⟩ = childOf p "schemas" :=
  join_single p (by decide) (by decide) (by decide)

@[simp] theorem join_database (p : JsPath) :
    p.join ⟨false, ["database"]⟩ = childOf p "database" :=
  join_single p (by decide) (by decide) (by decide)

@[simp] theorem join_indexjs (p : JsPath) :
    p.join ⟨false, ["index.js"]⟩ = childOf p "index.js" :=
  join_single p (by decide) (by decide) (by decide)

@[simp] theorem join_dot_packagejson (p : JsPath) :
    p.join ⟨false, [".", "package.json"]⟩ = childOf p "package.json" :=
  join_dot_single p (by decide) (by decide) (by decide)

@[simp] theorem join_dot_database (p : JsPath) :
    p.join ⟨false, [".", "database"]⟩ = childOf p "database" :=
  join_dot_single p (by decide) (by decide) (by decide)

@[simp] theorem join_dot_generated (p : JsPath) :
    p.join ⟨false, [".", "generated"]⟩ = childOf p "generated" :=
  join_dot_single p (by decide) (by decide) (by decide)

@[simp] theorem join_dot_functionsjs (p : JsPath) :
    p.join ⟨false, [".", "functions.js"]⟩ = childOf p "functions.js" :=
  join_dot_single p (by decide) (by decide) (by decide)

@[simp] theorem join_dot_schemajs (p : JsPath) :
    p.join ⟨false, [".", "schema.js"]⟩ = childOf p "schema.js" :=
  join_dot_single p (by decide) (by decide) (by decide)

@[simp] theorem join_dot_configjs (p : JsPath) :
    p.join ⟨false, [".", "config.js"]⟩ = childOf p "config.js" :=
  join_dot_single p (by decide) (by decide) (by decide)

@[simp] theorem join_absolute (p q : JsPath) :
    (p.join q).absolute = p.absolute := rfl

@[simp] theorem childOf_absolute (p : JsPath) (s : String) :
    (childOf p s).absolute = p.absolute := rfl

@[simp] theorem dirname_childOf (p : JsPath) (s : String) :
    (childOf p s).dirname = p := by
  simp [childOf, JsPath.dirname]

theorem childOf_inj {p : JsPath} {a b : String} (h : childOf p a = childOf p b) :
    a = b := by
  have hsegs : p.segs ++ [a] = p.segs ++ [b] := congrArg JsPath.segs h
  simpa using hsegs

theorem childOf_ne (p : JsPath) {a b : String} (h : a ≠ b) :
    childOf p a ≠ childOf p b :=
  fun hc => h (childOf_inj hc)

theorem childOf_segs_length (p : JsPath) (s : String) :
    (childOf p s).segs.length = p.segs.length + 1 := by
  simp [childOf]

theorem mem_ancestors_length {p q : JsPath} (h : q ∈ p.ancestors) :
    q.segs.length ≤ p.segs.length := by
  rcases List.mem_map.mp h with ⟨n, _, rfl⟩
  simp [List.length_take]

theorem self_mem_ancestors (p : JsPath) : p ∈ p.ancestors := by
  refine List.mem_map.mpr ⟨p.segs.length, ?_, ?_⟩
  · exact List.mem_range.mpr (Nat.lt_succ_self _)
  · simp

theorem dirname_mem_ancestors (p : JsPath) : p.dirname ∈ p.ancestors := by
  refine List.mem_map.mpr ⟨p.segs.length - 1, ?_, ?_⟩
  · exact List.mem_range.mpr (Nat.lt_succ_of_le (Nat.sub_le _ _))
  · simp [JsPath.dirname, List.dropLast_eq_take]

theorem childOf_not_mem_ancestors (p : JsPath) (s : String) :
    childOf p s ∉ p.ancestors := by
  intro h
  have := mem_ancestors_length h
  simp [childOf_segs_length] at this

theorem grandchild_not_mem_ancestors (p : JsPath) (a b : String) :
    childOf (childOf p a) b ∉ p.ancestors := by
  intro h
  have := mem_ancestors_length h
  simp [childOf_segs_length] at this
  omega


/-! ### Well-formedness lemmas -/

theorem wf_child_not_mem {fs : Fs} (hw : wfFs fs) {p : JsPath}
    (h : p ∉ fs) (s : String) : childOf p s ∉ fs := by
  intro hmem
  have hd := (hw.2 _ hmem).2 (by simp [childOf])
  rw [dirname_childOf] at hd
  exact h hd

theorem wf_grandchild_not_mem {fs : Fs} (hw : wfFs fs) {p : JsPath}
    (h : p ∉ fs) (a b : String) : childOf (childOf p a) b ∉ fs :=
  wf_child_not_mem hw (wf_child_not_mem hw h a) b

/-! ### Monad run lemmas -/

@[simp] theorem run_bind (x : M α) (f : α → M β) (s : St) :
    (x >>= f) s =
      match x s with
      | (Res.ok a, s') => f a s'
      | (Res.err e, s') => (Res.err e, s') := rfl

@[simp] theorem run_pure (a : α) (s : St) :
    (Pure.pure a : M α) s = (Res.ok a, s) := rfl

@[simp] theorem run_M_pure (a : α) (s : St) :
    M.pure a s = (Res.ok a, s) := rfl

@[simp] theorem run_getSt (s : St) : getSt s = (Res.ok s, s) := rfl

@[simp] theorem run_throwE (e : Err) (s : St) :
    (throwE e : M α) s = (Res.err e, s) := rfl

@[simp] theorem run_tellE (e : Ev) (s : St) :
    tellE e s = (Res.ok (), ⟨s.fs, s.tr ++ [e]⟩) := rfl

@[simp] theorem run_existsM (p : JsPath) (s : St) :
    existsM p s = (Res.ok (decide (p ∈ s.fs)), s) := rfl

@[simp] theorem run_mkdirRecM (p : JsPath) (s : St) :
    mkdirRecM p s =
      (Res.ok (),
        ⟨(p.ancestors.filter (fun q => decide (q ∉ s.fs))) ++ s.fs,
          s.tr ++ [Ev.evMkdir p true]⟩) := rfl

theorem run_writeFileM_ok {p : JsPath} {s : St} (h : p.dirname ∈ s.fs)
    (c : Tmpl) :
    writeFileM p c s =
      (Res.ok (), ⟨p :: s.fs, s.tr ++ [Ev.evWriteFile p c]⟩) := by
  simp [writeFileM, h]

theorem run_mkdirM_ok {p : JsPath} {s : St} (h1 : p ∉ s.fs)
    (h2 : p.dirname ∈ s.fs) :
    mkdirM p s = (Res.ok (), ⟨p :: s.fs, s.tr ++ [Ev.evMkdir p false]⟩) := by
  simp [mkdirM, h1, h2]

theorem run_getSchemaDefinitions_ok {p : JsPath} {s : St} (h : p ∈ s.fs) :
    HyperdbHelper.getSchemaDefinitions p s =
      (Res.ok (), ⟨s.fs, s.tr ++ [Ev.evImportModule p]⟩) := by
  simp [HyperdbHelper.getSchemaDefinitions, h]

/-! ### Reduction of `mergeConfig` when the target directory is absent -/

theorem mergeConfig_of_dir_not_mem {fs : Fs} (hw : wfFs fs) (w : World)
    (filepath : Option JsPath) (options : Options)
    (h : getDatabaseConfigDirectory w.cwd filepath ∉ fs) :
    HyperdbHelper.mergeConfig fs w filepath options =
      (let dir := getDatabaseConfigDirectory w.cwd filepath
       let packageOpt : Option PackageJson :=
        if childOf w.cwd "package.json" ∈ fs then some w.projectPackage
        else none
       ⟨dir, childOf dir "generated", childOf dir "functions.js",
        childOf dir "schema.js", childOf dir "config.js",
        childOf dir "package.json", packageOpt, options.examples,
        childOf dir "package.json",
        childOf (childOf dir "generated") "package.json",
        childOf (childOf dir "generated") "schemas",
        childOf (childOf dir "generated") "database",
        match packageOpt with
        | some pkg => some (jsOrString pkg.type "commonjs")
        | none => none⟩) := by
  have hconf : childOf (getDatabaseConfigDirectory w.cwd filepath)
      "config.js" ∉ fs := wf_child_not_mem hw h _
  simp [HyperdbHelper.mergeConfig, hconf, UserConfig.empty,
    getFilepathFromConfig, JsPath.isAbsolute,
    HyperdbHelper.defaultFunctionsFilepath, HyperdbHelper.defaultSchemaFilepath,
    HyperdbHelper.defaultConfigFilepath,
    HyperdbHelper.defaultProjectPackageJsonFilepath,
    HyperdbHelper.defaultGeneratedCodeDirectory]

/-! ### Symbolic execution of `createDefaultFiles` -/

theorem mem_newAnc_append {fs : Fs} {p q : JsPath} (h : q ∈ p.ancestors) :
    q ∈ (p.ancestors.filter (fun r => !decide (r ∈ fs))) ++ fs := by
  by_cases hq : q ∈ fs
  · exact List.mem_append_right _ hq
  · exact List.mem_append_left _ (List.mem_filter.mpr ⟨h, by simp [hq]⟩)

theorem not_mem_newAnc_append {fs : Fs} {p q : JsPath}
    (h1 : q ∉ p.ancestors) (h2 : q ∉ fs) :
    q ∉ (p.ancestors.filter (fun r => !decide (r ∈ fs))) ++ fs := by
  intro hmem
  rcases List.mem_append.mp hmem with hl | hr
  · exact h1 (List.mem_filter.mp hl).1
  · exact h2 hr

theorem createDefaultFiles_success {c : Config} {s : St}
    (hw : wfFs s.fs)
    (hdir : c.databaseConfigDirectory ∉ s.fs)
    (hcfg : c.configFilepath = childOf c.databaseConfigDirectory "config.js")
    (hfn : c.functionsFilepath = childOf c.databaseConfigDirectory "functions.js")
    (hsch : c.schemaFilepath = childOf c.databaseConfigDirectory "schema.js")
    (hgen : c.generatedCodeDirectory = childOf c.databaseConfigDirectory "generated")
    (hdb : c.databaseConfigJsonFilepath = childOf c.databaseConfigDirectory "package.json")
    (hgpk : c.generatedPackageJsonFilepath =
      childOf (childOf c.databaseConfigDirectory "generated") "package.json")
    (hhdb : c.hyperdbDirectory =
      childOf (childOf c.databaseConfigDirectory "generated") "database")
    (hidx : c.examples = true →
      childOf c.databaseConfigDirectory.dirname "index.js" ∉ s.fs) :
    HyperdbHelper.createDefaultFiles c s =
      (Res.ok (),
        ⟨createdFs c.databaseConfigDirectory c.examples s.fs,
          s.tr ++ createdTr c.databaseConfigDirectory c.examples c.moduleType⟩) := by
  set D := c.databaseConfigDirectory with hD
  have hDanc : D ∈ (D.ancestors.filter (fun r => !decide (r ∈ s.fs))) ++ s.fs :=
    mem_newAnc_append (self_mem_ancestors D)
  have hDdir : D.dirname ∈ (D.ancestors.filter (fun r => !decide (r ∈ s.fs))) ++ s.fs :=
    mem_newAnc_append (dirname_mem_ancestors D)
  have hg_ne_sch : childOf D "generated" ≠ childOf D "schema.js" :=
    childOf_ne D (by decide)
  have hg_ne_fn : childOf D "generated" ≠ childOf D "functions.js" :=
    childOf_ne D (by decide)
  have hg_ne_cfg : childOf D "generated" ≠ childOf D "config.js" :=
    childOf_ne D (by decide)
  have hg_anc : childOf D "generated" ∉
      (D.ancestors.filter (fun r => !decide (r ∈ s.fs))) ++ s.fs :=
    not_mem_newAnc_append (childOf_not_mem_ancestors D _)
      (wf_child_not_mem hw hdir _)
  cases hex : c.examples with
  | false =>
    simp only [HyperdbHelper.createDefaultFiles, HyperdbHelper.createConfigFile,
      HyperdbHelper.createFunctionsFile, HyperdbHelper.createSchemaFile,
      HyperdbHelper.createDatabaseConfigPackageJsonFile,
      HyperdbHelper.createGeneratedPackageJsonFile,
      HyperdbHelper.createExampleIndexFile,
      hcfg, hfn, hsch, hgen, hdb, hgpk, hhdb, hex, ← hD]
    simp only [run_bind, run_existsM, run_pure, run_mkdirRecM, run_throwE,
      join_indexjs, join_packagejson]
    simp [hdir, run_writeFileM_ok, run_mkdirM_ok, hDanc, hDdir,
      hg_ne_sch, hg_ne_fn, hg_ne_cfg, hg_anc, createdFs, createdTr, hex]
  | true =>
    have hidx' := hidx hex
    simp only [HyperdbHelper.createDefaultFiles, HyperdbHelper.createConfigFile,
      HyperdbHelper.createFunctionsFile, HyperdbHelper.createSchemaFile,
      HyperdbHelper.createDatabaseConfigPackageJsonFile,
      HyperdbHelper.createGeneratedPackageJsonFile,
      HyperdbHelper.createExampleIndexFile,
      hcfg, hfn, hsch, hgen, hdb, hgpk, hhdb, hex, ← hD]
    simp only [run_bind, run_existsM, run_pure, run_mkdirRecM, run_throwE,
      join_indexjs, join_packagejson]
    simp [hdir, hidx', run_writeFileM_ok, run_mkdirM_ok, hDanc, hDdir,
      hg_ne_sch, hg_ne_fn, hg_ne_cfg, hg_anc, createdFs, createdTr, hex]

theorem createDefaultFiles_err_dirExists {c : Config} {s : St}
    (h : c.databaseConfigDirectory ∈ s.fs) :
    HyperdbHelper.createDefaultFiles c s =
      (Res.err (Err.schemaDirectoryExists c.databaseConfigDirectory), s) := by
  simp [HyperdbHelper.createDefaultFiles, h]

theorem createDefaultFiles_err_idxExists {c : Config} {s : St}
    (hdir : c.databaseConfigDirectory ∉ s.fs)
    (hex : c.examples = true)
    (hidx : childOf c.databaseConfigDirectory.dirname "index.js" ∈ s.fs) :
    HyperdbHelper.createDefaultFiles c s =
      (Res.err (Err.indexFileExists
        (childOf c.databaseConfigDirectory.dirname "index.js")), s) := by
  simp [HyperdbHelper.createDefaultFiles, hdir, hex, hidx]

/-! ### Run equations for `init` and `build` -/

theorem run_init (w : World) (filepath : Option JsPath) (options : Options)
    (s : St) :
    HyperdbHelper.init w filepath options s =
      (let config := HyperdbHelper.mergeConfig s.fs w filepath options
       match HyperdbHelper.validateConfig config with
       | some e => (Res.err e, s)
       | none =>
         if childOf w.cwd "package.json" ∈ s.fs then
           match HyperdbHelper.createDefaultFiles config s with
           | (Res.ok _, s') =>
             (Res.ok (HyperdbHelper.checkPackageDependencies config), s')
           | (Res.err e, s') => (Res.err e, s')
         else (Res.err Err.packageJsonNotFound, s)) := by
  simp only [HyperdbHelper.init, run_bind, run_getSt, run_pure, run_existsM,
    run_throwE, join_dot_packagejson]
  cases hv : HyperdbHelper.validateConfig
      (HyperdbHelper.mergeConfig s.fs w filepath options) with
  | some e => simp [hv]
  | none =>
    by_cases hp : childOf w.cwd "package.json" ∈ s.fs
    · cases hc : HyperdbHelper.createDefaultFiles
          (HyperdbHelper.mergeConfig s.fs w filepath options) s with
      | mk r s' => cases r <;> simp [hv, hp, hc]
    · simp [hv, hp]

theorem run_build (w : World) (filepath : Option JsPath) (options : Options)
    (s : St) :
    HyperdbHelper.build w filepath options s =
      (let config := HyperdbHelper.mergeConfig s.fs w filepath options
       if config.databaseConfigDirectory ∈ s.fs then
         if config.schemaFilepath ∈ s.fs then
           (Res.ok (),
             ⟨s.fs, s.tr ++
               [Ev.evImportModule config.schemaFilepath,
                Ev.evHyperschemaFrom config.hyperschemaDirectory,
                Ev.evCreateSchema, Ev.evHyperschemaToDisk,
                Ev.evHyperdbFrom config.hyperschemaDirectory
                  config.hyperdbDirectory,
                Ev.evCreateDatabase, Ev.evHyperdbToDisk]⟩)
         else (Res.err (Err.importFailed config.schemaFilepath), s)
       else
         (Res.err (Err.databaseDirectoryNotFound
           config.databaseConfigDirectory), s)) := by
  simp only [HyperdbHelper.build, HyperdbHelper.buildSchema,
    HyperdbHelper.getSchemaDefinitions, run_bind, run_getSt, run_pure,
    run_existsM, run_throwE, run_tellE]
  by_cases hdir : (HyperdbHelper.mergeConfig s.fs w filepath
      options).databaseConfigDirectory ∈ s.fs
  · by_cases hsch : (HyperdbHelper.mergeConfig s.fs w filepath
        options).schemaFilepath ∈ s.fs
    · simp [HyperdbHelper.getSchemaDefinitions, hdir, hsch]
    · simp [HyperdbHelper.getSchemaDefinitions, hdir, hsch]
  · simp [hdir]

/-! ### Structural facts about `mergeConfig` and `validateConfig` -/

theorem validateConfig_eq (c : Config) :
    HyperdbHelper.validateConfig c =
      (if jsTruthyOptStr c.moduleType = true then none
       else some (Err.missingConfigFields ["moduleType"])) := by
  by_cases h : jsTruthyOptStr c.moduleType = true <;>
    simp [HyperdbHelper.validateConfig, jsTruthyPathStr, h]

theorem mergeConfig_dir (fs : Fs) (w : World) (filepath : Option JsPath)
    (options : Options) :
    (HyperdbHelper.mergeConfig fs w filepath options).databaseConfigDirectory =
      getDatabaseConfigDirectory w.cwd filepath := rfl

theorem mergeConfig_examples (fs : Fs) (w : World) (filepath : Option JsPath)
    (options : Options) :
    (HyperdbHelper.mergeConfig fs w filepath options).examples =
      options.examples := rfl

theorem mergeConfig_package (fs : Fs) (w : World) (filepath : Option JsPath)
    (options : Options) :
    (HyperdbHelper.mergeConfig fs w filepath options).package =
      (if childOf w.cwd "package.json" ∈ fs then some w.projectPackage
       else none) := by
  simp [HyperdbHelper.mergeConfig]

/-! ### Error paths of `init` -/

theorem init_err_of_dir_mem {w : World} {filepath : Option JsPath}
    {options : Options} {s : St}
    (hdir : (HyperdbHelper.mergeConfig s.fs w filepath
      options).databaseConfigDirectory ∈ s.fs) :
    ∃ e, HyperdbHelper.init w filepath options s = (Res.err e, s) := by
  rw [run_init]
  cases hv : HyperdbHelper.validateConfig
      (HyperdbHelper.mergeConfig s.fs w filepath options) with
  | some e => exact ⟨e, by simp [hv]⟩
  | none =>
    by_cases hpk : childOf w.cwd "package.json" ∈ s.fs
    · exact ⟨Err.schemaDirectoryExists (HyperdbHelper.mergeConfig s.fs w
        filepath options).databaseConfigDirectory,
        by simp [hv, hpk, createDefaultFiles_err_dirExists hdir]⟩
    · exact ⟨Err.packageJsonNotFound, by simp [hv, hpk]⟩

theorem init_err_of_idx_mem {w : World} {filepath : Option JsPath}
    {options : Options} {s : St}
    (hdir : (HyperdbHelper.mergeConfig s.fs w filepath
      options).databaseConfigDirectory ∉ s.fs)
    (hoe : options.examples = true)
    (hidx : childOf (HyperdbHelper.mergeConfig s.fs w filepath
      options).databaseConfigDirectory.dirname "index.js" ∈ s.fs) :
    ∃ e, HyperdbHelper.init w filepath options s = (Res.err e, s) := by
  rw [run_init]
  cases hv : HyperdbHelper.validateConfig
      (HyperdbHelper.mergeConfig s.fs w filepath options) with
  | some e => exact ⟨e, by simp [hv]⟩
  | none =>
    by_cases hpk : childOf w.cwd "package.json" ∈ s.fs
    · have hcdf := createDefaultFiles_err_idxExists
        (c := HyperdbHelper.mergeConfig s.fs w filepath options)
        (s := s) hdir (by rw [mergeConfig_examples]; exact hoe) hidx
      exact ⟨Err.indexFileExists (childOf (HyperdbHelper.mergeConfig
        s.fs w filepath options).databaseConfigDirectory.dirname
        "index.js"), by simp [hv, hpk, hcdf]⟩
    · exact ⟨Err.packageJsonNotFound, by simp [hv, hpk]⟩

/-! ### Claim C1 -/

/-- C1: `init` never overwrites an existing directory or file.  For every
path that `init` would create or write (the database config directory,
`config.js`, `functions.js`, `schema.js`, the two `package.json` manifests,
the generated directory, and — when the `examples` option is set — the
example `index.js`; collected by `initTargetPaths` from the merged config),
if a directory or file already exists at that path, `init` fails with an
error and leaves the filesystem exactly as it was, writing over nothing. -/
theorem init_never_overwrites (w : World) (filepath : Option JsPath)
    (options : Options) (s : St) (hw : wfFs s.fs) (p : JsPath)
    (hp : p ∈ HyperdbHelper.initTargetPaths
      (HyperdbHelper.mergeConfig s.fs w filepath options))
    (hmem : p ∈ s.fs) :
    ∃ e, HyperdbHelper.init w filepath options s = (Res.err e, s) := by
  by_cases hdir : (HyperdbHelper.mergeConfig s.fs w filepath
      options).databaseConfigDirectory ∈ s.fs
  · exact init_err_of_dir_mem hdir
  · have hdir' := hdir
    rw [mergeConfig_dir] at hdir'
    have hmc := mergeConfig_of_dir_not_mem hw w filepath options hdir'
    cases hoe : options.examples with
    | false =>
      rw [hmc] at hp
      simp [HyperdbHelper.initTargetPaths, hoe] at hp
      rcases hp with h | h | h | h | h | h | h <;> subst h
      · exact absurd hmem hdir'
      · exact absurd hmem (wf_child_not_mem hw hdir' _)
      · exact absurd hmem (wf_child_not_mem hw hdir' _)
      · exact absurd hmem (wf_child_not_mem hw hdir' _)
      · exact absurd hmem (wf_child_not_mem hw hdir' _)
      · exact absurd hmem (wf_child_not_mem hw hdir' _)
      · exact absurd hmem (wf_grandchild_not_mem hw hdir' _ _)
    | true =>
      rw [hmc] at hp
      simp [HyperdbHelper.initTargetPaths, hoe] at hp
      rcases hp with h | h | h | h | h | h | h | h
      all_goals subst h
      · exact absurd hmem hdir'
      · exact absurd hmem (wf_child_not_mem hw hdir' _)
      · exact absurd hmem (wf_child_not_mem hw hdir' _)
      · exact absurd hmem (wf_child_not_mem hw hdir' _)
      · exact absurd hmem (wf_child_not_mem hw hdir' _)
      · exact absurd hmem (wf_child_not_mem hw hdir' _)
      · exact absurd hmem (wf_grandchild_not_mem hw hdir' _ _)
      · exact init_err_of_idx_mem hdir hoe
          (by rw [mergeConfig_dir]; exact hmem)

/-- Witness for C1 at a concrete input: the database config directory
`/home/database` already exists, and `init` fails leaving the state
unchanged. -/
theorem init_never_overwrites_witness :
    (wfFs (⟨true, ["home", "database"]⟩ :: exFs) ∧
      (⟨true, ["home", "database"]⟩ : JsPath) ∈
        HyperdbHelper.initTargetPaths (HyperdbHelper.mergeConfig
          (⟨true, ["home", "database"]⟩ :: exFs) exWorld none ⟨false⟩) ∧
      (⟨true, ["home", "database"]⟩ : JsPath) ∈
        ((⟨true, ["home", "database"]⟩ :: exFs) : Fs)) ∧
    ∃ e, HyperdbHelper.init exWorld none ⟨false⟩
      ⟨⟨true, ["home", "database"]⟩ :: exFs, []⟩ =
      (Res.err e, ⟨⟨true, ["home", "database"]⟩ :: exFs, []⟩) :=
  ⟨⟨by decide, by decide, by decide⟩,
    init_never_overwrites exWorld none ⟨false⟩
      ⟨⟨true, ["home", "database"]⟩ :: exFs, []⟩ (by decide)
      ⟨true, ["home", "database"]⟩ (by decide) (by decide)⟩

/-! ### Claim C4 -/

/-- C4: if the target database config directory already exists — or, when
the `examples` option is set, the sibling `index.js` file already exists —
then `init` throws an error before creating any directory or writing any
file, so the filesystem (and the whole program state) is unchanged on this
failure. -/
theorem init_guard_leaves_state_unchanged (w : World)
    (filepath : Option JsPath) (options : Options) (s : St) (_hw : wfFs s.fs)
    (h : getDatabaseConfigDirectory w.cwd filepath ∈ s.fs ∨
      (options.examples = true ∧
        childOf (getDatabaseConfigDirectory w.cwd filepath).dirname
          "index.js" ∈ s.fs)) :
    ∃ e, HyperdbHelper.init w filepath options s = (Res.err e, s) := by
  rcases h with hdir | ⟨hoe, hidx⟩
  · exact init_err_of_dir_mem (by rw [mergeConfig_dir]; exact hdir)
  · by_cases hdir : (HyperdbHelper.mergeConfig s.fs w filepath
        options).databaseConfigDirectory ∈ s.fs
    · exact init_err_of_dir_mem hdir
    · exact init_err_of_idx_mem hdir hoe (by rw [mergeConfig_dir]; exact hidx)

/-- Witness for C4 at a concrete input: with the `examples` flag set and a
pre-existing `/home/index.js`, `init` fails and the state is unchanged. -/
theorem init_guard_leaves_state_unchanged_witness :
    (wfFs (⟨true, ["home", "index.js"]⟩ :: exFs) ∧
      (⟨true⟩ : Options).examples = true ∧
      childOf (getDatabaseConfigDirectory exWorld.cwd none).dirname
        "index.js" ∈ ((⟨true, ["home", "index.js"]⟩ :: exFs) : Fs)) ∧
    ∃ e, HyperdbHelper.init exWorld none ⟨true⟩
      ⟨⟨true, ["home", "index.js"]⟩ :: exFs, []⟩ =
      (Res.err e, ⟨⟨true, ["home", "index.js"]⟩ :: exFs, []⟩) :=
  ⟨⟨by decide, by decide, by decide⟩,
    init_guard_leaves_state_unchanged exWorld none ⟨true⟩
      ⟨⟨true, ["home", "index.js"]⟩ :: exFs, []⟩ (by decide)
      (Or.inr ⟨by decide, by decide⟩)⟩

/-! ### Claim C9 -/

/-- C9: if the resolved database config directory does not exist, `build`
throws an error before loading the user schema module and before invoking
either external builder: the returned state equals the initial one, so
neither an import nor a builder event is recorded and no file is
written. -/
theorem build_missing_dir_no_effects (w : World) (filepath : Option JsPath)
    (options : Options) (s : St)
    (hdir : (HyperdbHelper.mergeConfig s.fs w filepath
      options).databaseConfigDirectory ∉ s.fs) :
    HyperdbHelper.build w filepath options s =
      (Res.err (Err.databaseDirectoryNotFound
        (HyperdbHelper.mergeConfig s.fs w filepath
          options).databaseConfigDirectory), s) := by
  rw [run_build]
  simp [hdir]

/-- Witness for C9: at `/home` with no `/home/database`, `build` fails and
the state — in particular the effect trace — is unchanged. -/
theorem build_missing_dir_no_effects_witness :
    ((HyperdbHelper.mergeConfig exSt.fs exWorld none
        ⟨false⟩).databaseConfigDirectory ∉ exSt.fs) ∧
    HyperdbHelper.build exWorld none ⟨false⟩ exSt =
      (Res.err (Err.databaseDirectoryNotFound
        (HyperdbHelper.mergeConfig exSt.fs exWorld none
          ⟨false⟩).databaseConfigDirectory), exSt) :=
  ⟨by decide,
    build_missing_dir_no_effects exWorld none ⟨false⟩ exSt (by decide)⟩

/-! ### Claim C5 -/

/-- C5: `build` performs exactly this sequence of effects: it dynamically
loads the user schema-definition module, then runs the schema builder
(`Hyperschema.from` on the hyperschema directory, the
`createSchema`, `Hyperschema.toDisk`) to completion before the database
builder (`HyperDB.from` on the hyperschema and hyperdb directories, the
exported `createDatabase`, `HyperDB.toDisk`), each builder persisting to
its configured directory. -/
theorem build_sequence (w : World) (filepath : Option JsPath)
    (options : Options) (s : St)
    (hdir : (HyperdbHelper.mergeConfig s.fs w filepath
      options).databaseConfigDirectory ∈ s.fs)
    (hsch : (HyperdbHelper.mergeConfig s.fs w filepath
      options).schemaFilepath ∈ s.fs) :
    HyperdbHelper.build w filepath options s =
      (Res.ok (),
        ⟨s.fs, s.tr ++
          [Ev.evImportModule (HyperdbHelper.mergeConfig s.fs w filepath
              options).schemaFilepath,
           Ev.evHyperschemaFrom (HyperdbHelper.mergeConfig s.fs w filepath
              options).hyperschemaDirectory,
           Ev.evCreateSchema, Ev.evHyperschemaToDisk,
           Ev.evHyperdbFrom
             (HyperdbHelper.mergeConfig s.fs w filepath
               options).hyperschemaDirectory
             (HyperdbHelper.mergeConfig s.fs w filepath
               options).hyperdbDirectory,
           Ev.evCreateDatabase, Ev.evHyperdbToDisk]⟩) := by
  rw [run_build]
  simp [hdir, hsch]

/-- Witness for C5: a concrete state where `/home/database` and
`/home/database/schema.js` exist; `build` succeeds with exactly the claimed
effect sequence. -/
theorem build_sequence_witness :
    ((HyperdbHelper.mergeConfig (⟨true, ["home", "database", "schema.js"]⟩ ::
        ⟨true, ["home", "database"]⟩ :: exFs) exWorld none
        ⟨false⟩).databaseConfigDirectory ∈
          ((⟨true, ["home", "database", "schema.js"]⟩ ::
            ⟨true, ["home", "database"]⟩ :: exFs) : Fs)) ∧
    HyperdbHelper.build exWorld none ⟨false⟩
      ⟨⟨true, ["home", "database", "schema.js"]⟩ ::
        ⟨true, ["home", "database"]⟩ :: exFs, []⟩ =
      (Res.ok (),
        ⟨⟨true, ["home", "database", "schema.js"]⟩ ::
          ⟨true, ["home", "database"]⟩ :: exFs,
         [] ++
          [Ev.evImportModule (HyperdbHelper.mergeConfig
              (⟨true, ["home", "database", "schema.js"]⟩ ::
                ⟨true, ["home", "database"]⟩ :: exFs) exWorld none
              ⟨false⟩).schemaFilepath,
           Ev.evHyperschemaFrom (HyperdbHelper.mergeConfig
              (⟨true, ["home", "database", "schema.js"]⟩ ::
                ⟨true, ["home", "database"]⟩ :: exFs) exWorld none
              ⟨false⟩).hyperschemaDirectory,
           Ev.evCreateSchema, Ev.evHyperschemaToDisk,
           Ev.evHyperdbFrom
             (HyperdbHelper.mergeConfig
               (⟨true, ["home", "database", "schema.js"]⟩ ::
                 ⟨true, ["home", "database"]⟩ :: exFs) exWorld none
               ⟨false⟩).hyperschemaDirectory
             (HyperdbHelper.mergeConfig
               (⟨true, ["home", "database", "schema.js"]⟩ ::
                 ⟨true, ["home", "database"]⟩ :: exFs) exWorld none
               ⟨false⟩).hyperdbDirectory,
           Ev.evCreateDatabase, Ev.evHyperdbToDisk]⟩) :=
  ⟨by decide,
    build_sequence exWorld none ⟨false⟩
      ⟨⟨true, ["home", "database", "schema.js"]⟩ ::
        ⟨true, ["home", "database"]⟩ :: exFs, []⟩ (by decide) (by decide)⟩

/-! ### Claim C8 -/

/-- C8: the config resolver merges the CLI arguments into the resulting
config object: the directory argument determines the database config
directory (via `getDatabaseConfigDirectory`), and the `examples` value of the parsed flags
 is stored verbatim in the merged config that `init` and
`build` then use. -/
theorem mergeConfig_reflects_cli (fs : Fs) (w : World)
    (filepath : Option JsPath) (options : Options) :
    (HyperdbHelper.mergeConfig fs w filepath options).databaseConfigDirectory
        = getDatabaseConfigDirectory w.cwd filepath ∧
      (HyperdbHelper.mergeConfig fs w filepath options).examples =
        options.examples :=
  ⟨rfl, rfl⟩

/-! ### Claim C3 -/

theorem getDatabaseConfigDirectory_absolute {cwd : JsPath}
    (hcwd : cwd.absolute = true) (filepath : Option JsPath) :
    (getDatabaseConfigDirectory cwd filepath).absolute = true := by
  unfold getDatabaseConfigDirectory
  by_cases h : (filepath.getD
      HyperdbHelper.defaultDatabaseConfigDirectory).isAbsolute = true
  · simp only [h, if_true]
    simpa [JsPath.isAbsolute] using h
  · simp [h, hcwd]

theorem getFilepathFromConfig_absolute {dir : JsPath}
    (hdir : dir.absolute = true) (v : Option JsPath) (d : JsPath) :
    (getFilepathFromConfig dir v d).absolute = true := by
  unfold getFilepathFromConfig
  by_cases h : (v.getD d).isAbsolute = true
  · simp only [h, if_true]
    simpa [JsPath.isAbsolute] using h
  · simp [h, hdir]

/-- C3: every config-referenced file path in the resolved config is
absolute, and each is produced by the claimed resolution rule: the base
schema directory is the CLI filepath argument when absolute and otherwise
that argument (default `./database`) joined to the working directory
(`getDatabaseConfigDirectory`); each configured-or-default path is kept when
absolute and otherwise joined to the base directory
(`getFilepathFromConfig`, applied to the loaded user config value); the
remaining paths are derived from the generated directory and the base
directory. -/
theorem mergeConfig_paths_absolute (fs : Fs) (w : World)
    (filepath : Option JsPath) (options : Options)
    (hcwd : w.cwd.absolute = true) :
    (HyperdbHelper.mergeConfig fs w filepath options).databaseConfigDirectory
        = getDatabaseConfigDirectory w.cwd filepath ∧
    (HyperdbHelper.mergeConfig fs w filepath options).functionsFilepath =
      getFilepathFromConfig (getDatabaseConfigDirectory w.cwd filepath)
        (if childOf (getDatabaseConfigDirectory w.cwd filepath) "config.js"
            ∈ fs then w.userConfig else UserConfig.empty).functionsFilepath
        HyperdbHelper.defaultFunctionsFilepath ∧
    (HyperdbHelper.mergeConfig fs w filepath options).schemaFilepath =
      getFilepathFromConfig (getDatabaseConfigDirectory w.cwd filepath)
        (if childOf (getDatabaseConfigDirectory w.cwd filepath) "config.js"
            ∈ fs then w.userConfig else UserConfig.empty).schemaFilepath
        HyperdbHelper.defaultSchemaFilepath ∧
    (HyperdbHelper.mergeConfig fs w filepath options).configFilepath =
      getFilepathFromConfig (getDatabaseConfigDirectory w.cwd filepath)
        (if childOf (getDatabaseConfigDirectory w.cwd filepath) "config.js"
            ∈ fs then w.userConfig else UserConfig.empty).configFilepath
        HyperdbHelper.defaultConfigFilepath ∧
    (HyperdbHelper.mergeConfig fs w filepath
        options).projectPackageJsonFilepath =
      getFilepathFromConfig (getDatabaseConfigDirectory w.cwd filepath)
        ((if childOf (getDatabaseConfigDirectory w.cwd filepath) "config.js"
            ∈ fs then w.userConfig else UserConfig.empty).projectPackageJsonFilepath)
        HyperdbHelper.defaultProjectPackageJsonFilepath ∧
    (HyperdbHelper.mergeConfig fs w filepath options).generatedCodeDirectory =
      getFilepathFromConfig (getDatabaseConfigDirectory w.cwd filepath)
        ((if childOf (getDatabaseConfigDirectory w.cwd filepath) "config.js"
            ∈ fs then w.userConfig else UserConfig.empty).generatedCodeDirectory)
        HyperdbHelper.defaultGeneratedCodeDirectory ∧
    (HyperdbHelper.mergeConfig fs w filepath
        options).databaseConfigDirectory.absolute = true ∧
    (HyperdbHelper.mergeConfig fs w filepath
        options).functionsFilepath.absolute = true ∧
    (HyperdbHelper.mergeConfig fs w filepath
        options).schemaFilepath.absolute = true ∧
    (HyperdbHelper.mergeConfig fs w filepath
        options).configFilepath.absolute = true ∧
    (HyperdbHelper.mergeConfig fs w filepath
        options).projectPackageJsonFilepath.absolute = true ∧
    (HyperdbHelper.mergeConfig fs w filepath
        options).generatedCodeDirectory.absolute = true ∧
    (HyperdbHelper.mergeConfig fs w filepath
        options).databaseConfigJsonFilepath.absolute = true ∧
    (HyperdbHelper.mergeConfig fs w filepath
        options).generatedPackageJsonFilepath.absolute = true ∧
    (HyperdbHelper.mergeConfig fs w filepath
        options).hyperschemaDirectory.absolute = true ∧
    (HyperdbHelper.mergeConfig fs w filepath
        options).hyperdbDirectory.absolute = true := by
  have hdir : (getDatabaseConfigDirectory w.cwd filepath).absolute = true :=
    getDatabaseConfigDirectory_absolute hcwd filepath
  refine ⟨rfl, rfl, rfl, rfl, rfl, rfl, hdir, ?_, ?_, ?_, ?_, ?_, ?_, ?_,
    ?_, ?_⟩
  · exact getFilepathFromConfig_absolute hdir _ _
  · exact getFilepathFromConfig_absolute hdir _ _
  · exact getFilepathFromConfig_absolute hdir _ _
  · exact getFilepathFromConfig_absolute hdir _ _
  · exact getFilepathFromConfig_absolute hdir _ _
  · show (JsPath.join _ _).absolute = true
    simpa using hdir
  · show (JsPath.join _ _).absolute = true
    simp only [join_absolute]
    exact getFilepathFromConfig_absolute hdir _ _
  · show (JsPath.join _ _).absolute = true
    simp only [join_absolute]
    exact getFilepathFromConfig_absolute hdir _ _
  · show (JsPath.join _ _).absolute = true
    simp only [join_absolute]
    exact getFilepathFromConfig_absolute hdir _ _

/-- Witness for C3: at the concrete world the working directory is absolute
and (picking one conjunct) the resolved functions filepath is absolute. -/
theorem mergeConfig_paths_absolute_witness :
    exWorld.cwd.absolute = true ∧
    (HyperdbHelper.mergeConfig exFs exWorld none
      ⟨false⟩).functionsFilepath.absolute = true :=
  ⟨by decide,
    (mergeConfig_paths_absolute exFs exWorld none ⟨false⟩
      (by decide)).2.2.2.2.2.2.2.2.1⟩

/-! ### Claim C2 -/

/-- Counterexample to C2 as stated: the key `package` is present in both
the defaults (`package: {}`) and the loaded user config module, yet the
merged config does not take the user config value — it is unconditionally
replaced by the parsed project `package.json`. -/
theorem mergeConfig_package_not_user :
    exWorldCfg.userConfig.package = some ⟨none, none⟩ ∧
    (HyperdbHelper.mergeConfig exFsCfg exWorldCfg none ⟨false⟩).package =
      some ⟨some "module", none⟩ ∧
    (HyperdbHelper.mergeConfig exFsCfg exWorldCfg none ⟨false⟩).package ≠
      exWorldCfg.userConfig.package := by decide

/-- C2 (amended): the merge is a three-tier precedence for every key except
`package`: each path key is resolved from the loaded user config value when
one is provided, falling back to the default, and the derived values (the
base schema directory from the CLI argument, and every path derived from it
or from the generated directory) override both; the `package` key is
instead replaced unconditionally by the loaded project manifest (or by
`undefined` when none loads). -/
theorem mergeConfig_precedence (fs : Fs) (w : World)
    (filepath : Option JsPath) (options : Options) :
    (HyperdbHelper.mergeConfig fs w filepath options).databaseConfigDirectory
        = getDatabaseConfigDirectory w.cwd filepath ∧
    (HyperdbHelper.mergeConfig fs w filepath options).functionsFilepath =
      getFilepathFromConfig (getDatabaseConfigDirectory w.cwd filepath)
        ((if childOf (getDatabaseConfigDirectory w.cwd filepath) "config.js"
            ∈ fs then w.userConfig else UserConfig.empty).functionsFilepath)
        HyperdbHelper.defaultFunctionsFilepath ∧
    (HyperdbHelper.mergeConfig fs w filepath options).schemaFilepath =
      getFilepathFromConfig (getDatabaseConfigDirectory w.cwd filepath)
        ((if childOf (getDatabaseConfigDirectory w.cwd filepath) "config.js"
            ∈ fs then w.userConfig else UserConfig.empty).schemaFilepath)
        HyperdbHelper.defaultSchemaFilepath ∧
    (HyperdbHelper.mergeConfig fs w filepath options).configFilepath =
      getFilepathFromConfig (getDatabaseConfigDirectory w.cwd filepath)
        ((if childOf (getDatabaseConfigDirectory w.cwd filepath) "config.js"
            ∈ fs then w.userConfig else UserConfig.empty).configFilepath)
        HyperdbHelper.defaultConfigFilepath ∧
    (HyperdbHelper.mergeConfig fs w filepath
        options).projectPackageJsonFilepath =
      getFilepathFromConfig (getDatabaseConfigDirectory w.cwd filepath)
        ((if childOf (getDatabaseConfigDirectory w.cwd filepath) "config.js"
            ∈ fs then w.userConfig else UserConfig.empty).projectPackageJsonFilepath)
        HyperdbHelper.defaultProjectPackageJsonFilepath ∧
    (HyperdbHelper.mergeConfig fs w filepath options).generatedCodeDirectory =
      getFilepathFromConfig (getDatabaseConfigDirectory w.cwd filepath)
        ((if childOf (getDatabaseConfigDirectory w.cwd filepath) "config.js"
            ∈ fs then w.userConfig else UserConfig.empty).generatedCodeDirectory)
        HyperdbHelper.defaultGeneratedCodeDirectory ∧
    (HyperdbHelper.mergeConfig fs w filepath
        options).databaseConfigJsonFilepath =
      (getDatabaseConfigDirectory w.cwd filepath).join
        ⟨false, ["package.json"]⟩ ∧
    (HyperdbHelper.mergeConfig fs w filepath
        options).generatedPackageJsonFilepath =
      (HyperdbHelper.mergeConfig fs w filepath
        options).generatedCodeDirectory.join ⟨false, ["package.json"]⟩ ∧
    (HyperdbHelper.mergeConfig fs w filepath options).hyperschemaDirectory =
      (HyperdbHelper.mergeConfig fs w filepath
        options).generatedCodeDirectory.join ⟨false, ["schemas"]⟩ ∧
    (HyperdbHelper.mergeConfig fs w filepath options).hyperdbDirectory =
      (HyperdbHelper.mergeConfig fs w filepath
        options).generatedCodeDirectory.join ⟨false, ["database"]⟩ ∧
    (HyperdbHelper.mergeConfig fs w filepath options).package =
      (if childOf w.cwd "package.json" ∈ fs then some w.projectPackage
       else none) :=
  ⟨rfl, rfl, rfl, rfl, rfl, rfl, rfl, rfl, rfl, rfl,
    mergeConfig_package fs w filepath options⟩

/-! ### Claim C6 -/

theorem depMissing_eq_all (deps : List (String × String))
    (hv : ∀ kv ∈ deps, kv.2 ≠ "") (d : String) :
    (!(jsTruthyOptStr ((deps.find? (fun kv => kv.1 == d)).map
      (fun kv => kv.2)))) = deps.all (fun kv => kv.1 != d) := by
  induction deps with
  | nil => simp [jsTruthyOptStr]
  | cons kv rest ih =>
    have hkv : kv.2 ≠ "" := hv kv (List.mem_cons_self _ _)
    by_cases hk : (kv.1 == d) = true
    · have h2 : (kv.2 != "") = true := by simpa [bne_iff_ne] using hkv
      have h1 : (kv.1 != d) = false := by simp [bne, hk]
      simp [hk, jsTruthyOptStr, h2, h1]
    · have hk' : (kv.1 == d) = false := by
        cases h : (kv.1 == d) with
        | true => exact absurd h hk
        | false => rfl
      have h1 : (kv.1 != d) = true := by simp [bne, hk']
      have ih' := ih (fun x hx => hv x (List.mem_cons_of_mem _ hx))
      simp [hk, h1, ih']

/-- Counterexample to C6 as stated: a manifest declaring `"hyperdb": ""`
has `hyperdb` as a key of its dependencies map, yet
`checkPackageDependencies` still reports it missing, because the code tests
the truthiness of the version entry (`!dependencies[dependency]`), not key
membership. -/
theorem checkPackageDependencies_not_keys :
    (HyperdbHelper.mergeConfig exFs exWorldDeps none ⟨false⟩).package =
      some ⟨none, some [("hyperdb", "")]⟩ ∧
    ("hyperdb" ∈ ([("hyperdb", "")] :
      List (String × String)).map (fun kv => kv.1)) ∧
    HyperdbHelper.checkPackageDependencies
      (HyperdbHelper.mergeConfig exFs exWorldDeps none ⟨false⟩) =
      ["hyperschema", "hyperdb", "corestore"] := by decide

/-- C6 (amended): `checkPackageDependencies` returns, in the required
list order, exactly those required names whose entry in the dependencies
map is missing or falsy (such as an empty version string); when every
declared dependency has a non-empty version this is exactly the set of
non-keys, a missing `dependencies` field behaves as empty, and when no
package manifest was loaded the entire required list is returned. -/
theorem checkPackageDependencies_spec (c : Config) :
    (c.package = none →
      HyperdbHelper.checkPackageDependencies c =
        HyperdbHelper.requiredDependencies) ∧
    (∀ pkg, c.package = some pkg → pkg.dependencies = none →
      HyperdbHelper.checkPackageDependencies c =
        HyperdbHelper.requiredDependencies) ∧
    (∀ pkg deps, c.package = some pkg → pkg.dependencies = some deps →
      (∀ kv ∈ deps, kv.2 ≠ "") →
      HyperdbHelper.checkPackageDependencies c =
        HyperdbHelper.requiredDependencies.filter
          (fun d => deps.all (fun kv => kv.1 != d))) := by
  refine ⟨?_, ?_, ?_⟩
  · intro h
    simp [HyperdbHelper.checkPackageDependencies, h]
  · intro pkg h hd
    simp [HyperdbHelper.checkPackageDependencies, h, hd,
      HyperdbHelper.requiredDependencies, jsTruthyOptStr]
  · intro pkg deps h hd hv
    simp only [HyperdbHelper.checkPackageDependencies, h, hd,
      Option.getD_some]
    exact List.filter_congr (fun d _ => depMissing_eq_all deps hv d)

/-- Witness for C6: a manifest with `hyperschema` and `corestore` declared
at non-empty versions reports exactly `hyperdb` as missing — the unique
non-key. -/
theorem checkPackageDependencies_spec_witness :
    (∀ kv ∈ ([("hyperschema", "1.0.0"), ("corestore", "7.0.0")] :
      List (String × String)), kv.2 ≠ "") ∧
    HyperdbHelper.checkPackageDependencies
        ⟨⟨true, ["home", "database"]⟩, ⟨true, ["home", "database"]⟩,
          ⟨true, ["home", "database"]⟩, ⟨true, ["home", "database"]⟩,
          ⟨true, ["home", "database"]⟩, ⟨true, ["home", "database"]⟩,
          some ⟨none, some [("hyperschema", "1.0.0"), ("corestore", "7.0.0")]⟩,
          false, ⟨true, ["home", "database"]⟩, ⟨true, ["home", "database"]⟩,
          ⟨true, ["home", "database"]⟩, ⟨true, ["home", "database"]⟩,
          some "commonjs"⟩ =
      HyperdbHelper.requiredDependencies.filter
        (fun d => ([("hyperschema", "1.0.0"), ("corestore", "7.0.0")] :
          List (String × String)).all (fun kv => kv.1 != d)) :=
  ⟨by decide,
    (checkPackageDependencies_spec
        ⟨⟨true, ["home", "database"]⟩, ⟨true, ["home", "database"]⟩,
          ⟨true, ["home", "database"]⟩, ⟨true, ["home", "database"]⟩,
          ⟨true, ["home", "database"]⟩, ⟨true, ["home", "database"]⟩,
          some ⟨none, some [("hyperschema", "1.0.0"), ("corestore", "7.0.0")]⟩,
          false, ⟨true, ["home", "database"]⟩, ⟨true, ["home", "database"]⟩,
          ⟨true, ["home", "database"]⟩, ⟨true, ["home", "database"]⟩,
          some "commonjs"⟩).2.2
      ⟨none, some [("hyperschema", "1.0.0"), ("corestore", "7.0.0")]⟩
      [("hyperschema", "1.0.0"), ("corestore", "7.0.0")]
      rfl rfl (by decide)⟩

/-! ### Claim C10 -/

/-- Counterexample to C10 as stated: with no `package.json` in the working
directory but a loaded user config module that exports a truthy
`moduleType`, `validateConfig` passes and `init` throws the dedicated
`package.json not found` error — not the `Missing required config fields`
error the claim predicts.  (No file is created either way.) -/
theorem init_missing_pkg_error_kind :
    childOf exCwd "package.json" ∉ exFsNoPkg ∧
    HyperdbHelper.init exWorldCfg none ⟨false⟩ ⟨exFsNoPkg, []⟩ =
      (Res.err Err.packageJsonNotFound, ⟨exFsNoPkg, []⟩) := by
  decide

/-- C10 (amended): if no `package.json` exists in the working directory,
`init` throws before creating any file or directory (the state is returned
unchanged); moreover, whenever the merged config ends up without a truthy
`moduleType` — in particular whenever no loaded user config module supplies
one, since `config.package` is then left `undefined` and `moduleType` is
never set — the error is precisely the validateConfig error `Missing required
config fields: moduleType`, not the dedicated `package.json not found`
error checked later in `init`. -/
theorem init_no_project_package_json (w : World) (filepath : Option JsPath)
    (options : Options) (s : St)
    (hpkg : childOf w.cwd "package.json" ∉ s.fs) :
    (∃ e, HyperdbHelper.init w filepath options s = (Res.err e, s)) ∧
    (jsTruthyOptStr (HyperdbHelper.mergeConfig s.fs w filepath
        options).moduleType = false →
      HyperdbHelper.init w filepath options s =
        (Res.err (Err.missingConfigFields ["moduleType"]), s)) := by
  constructor
  · cases hv : HyperdbHelper.validateConfig
        (HyperdbHelper.mergeConfig s.fs w filepath options) with
    | some e => exact ⟨e, by rw [run_init]; simp [hv]⟩
    | none =>
      exact ⟨Err.packageJsonNotFound, by rw [run_init]; simp [hv, hpkg]⟩
  · intro hmt
    have hv : HyperdbHelper.validateConfig
        (HyperdbHelper.mergeConfig s.fs w filepath options) =
        some (Err.missingConfigFields ["moduleType"]) := by
      rw [validateConfig_eq, hmt]
      simp
    rw [run_init]
    simp [hv]

/-- Witness for C10 (amended): no `package.json` and no user config at all,
so `init` fails with the `Missing required config fields` error and the
state is unchanged. -/
theorem init_no_project_package_json_witness :
    childOf exCwd "package.json" ∉ ([rootPath, exCwd] : Fs) ∧
    HyperdbHelper.init exWorld none ⟨false⟩ ⟨[rootPath, exCwd], []⟩ =
      (Res.err (Err.missingConfigFields ["moduleType"]),
        ⟨[rootPath, exCwd], []⟩) :=
  ⟨by decide,
    (init_no_project_package_json exWorld none ⟨false⟩
      ⟨[rootPath, exCwd], []⟩ (by decide)).2 (by decide)⟩

/-! ### Claim C7 -/

theorem jsOrString_ne_empty (o : Option String) {d : String} (hd : d ≠ "") :
    jsOrString o d ≠ "" := by
  cases o with
  | none => simpa [jsOrString] using hd
  | some s =>
    by_cases hs : s = ""
    · simpa [jsOrString, hs] using hd
    · simp [jsOrString, hs]

/-- Counterexample to C7 as stated: `init ./sub/database` from `/home`
succeeds, and `fs.mkdir` with `recursive: true` also creates the intermediate
directory `/home/sub`, which existed before neither in the filesystem nor
among the exact claimed set of written paths (`initTargetPaths`). -/
theorem init_creates_missing_ancestors :
    (HyperdbHelper.init exWorld (some ⟨false, [".", "sub", "database"]⟩)
        ⟨false⟩ exSt).1 =
      Res.ok ["hyperschema", "hyperdb", "corestore"] ∧
    (⟨true, ["home", "sub"]⟩ : JsPath) ∈
      (HyperdbHelper.init exWorld (some ⟨false, [".", "sub", "database"]⟩)
        ⟨false⟩ exSt).2.fs ∧
    (⟨true, ["home", "sub"]⟩ : JsPath) ∉ exSt.fs ∧
    (⟨true, ["home", "sub"]⟩ : JsPath) ∉
      HyperdbHelper.initTargetPaths (HyperdbHelper.mergeConfig exSt.fs
        exWorld (some ⟨false, [".", "sub", "database"]⟩) ⟨false⟩) := by
  decide

/-- C7 (amended): a successful `init` writes exactly the fixed set of paths
plus the previously-missing ancestor directories of the database config
directory (created by the recursive `mkdir`): the resulting state is the
initial filesystem extended with `createdFs` (the directory and its
ancestors, `config.js`, `functions.js`, `schema.js`, the two `package.json`
manifests, the generated directory, and — only with the `examples` option —
`index.js` in the parent directory), and the effect trace records exactly
those directory creations and file writes (`createdTr`); nothing else is
touched. -/
theorem init_success_frame (w : World) (filepath : Option JsPath)
    (options : Options) (s : St) (hw : wfFs s.fs)
    (hdir : getDatabaseConfigDirectory w.cwd filepath ∉ s.fs)
    (hpkg : childOf w.cwd "package.json" ∈ s.fs)
    (hidx : options.examples = true →
      childOf (getDatabaseConfigDirectory w.cwd filepath).dirname
        "index.js" ∉ s.fs) :
    HyperdbHelper.init w filepath options s =
      (Res.ok (HyperdbHelper.checkPackageDependencies
        (HyperdbHelper.mergeConfig s.fs w filepath options)),
       ⟨createdFs (getDatabaseConfigDirectory w.cwd filepath)
          options.examples s.fs,
        s.tr ++ createdTr (getDatabaseConfigDirectory w.cwd filepath)
          options.examples
          (HyperdbHelper.mergeConfig s.fs w filepath options).moduleType⟩) := by
  have hmc := mergeConfig_of_dir_not_mem hw w filepath options hdir
  have hmt : jsTruthyOptStr (HyperdbHelper.mergeConfig s.fs w filepath
      options).moduleType = true := by
    simp only [hmc, hpkg, if_true]
    simp only [jsTruthyOptStr, bne_iff_ne, ne_eq, decide_not]
    simp [jsOrString_ne_empty w.projectPackage.type (show "commonjs" ≠ ""
      by decide)]
  have hv : HyperdbHelper.validateConfig
      (HyperdbHelper.mergeConfig s.fs w filepath options) = none := by
    rw [validateConfig_eq, hmt]
    simp
  have hrun := createDefaultFiles_success (s := s)
    (c := HyperdbHelper.mergeConfig s.fs w filepath options) hw
    (by rw [mergeConfig_dir]; exact hdir)
    (by simp [hmc]) (by simp [hmc]) (by simp [hmc]) (by simp [hmc])
    (by simp [hmc]) (by simp [hmc]) (by simp [hmc])
    (by rw [mergeConfig_examples, mergeConfig_dir]; exact hidx)
  rw [run_init]
  simp only [hv, hpkg, if_true, hrun, mergeConfig_dir, mergeConfig_examples]

/-- Witness for C7 (amended): the default `init` at `/home` succeeds and
produces exactly the characterized state and trace. -/
theorem init_success_frame_witness :
    (wfFs exSt.fs ∧ getDatabaseConfigDirectory exWorld.cwd none ∉ exSt.fs ∧
      childOf exWorld.cwd "package.json" ∈ exSt.fs) ∧
    HyperdbHelper.init exWorld none ⟨false⟩ exSt =
      (Res.ok (HyperdbHelper.checkPackageDependencies
        (HyperdbHelper.mergeConfig exSt.fs exWorld none ⟨false⟩)),
       ⟨createdFs (getDatabaseConfigDirectory exWorld.cwd none) false exSt.fs,
        exSt.tr ++ createdTr (getDatabaseConfigDirectory exWorld.cwd none)
          false
          (HyperdbHelper.mergeConfig exSt.fs exWorld none
            ⟨false⟩).moduleType⟩) :=
  ⟨⟨by decide, by decide, by decide⟩,
    init_success_frame exWorld none ⟨false⟩ exSt (by decide) (by decide)
      (by decide) (by decide)⟩

end HyperdbSpec
